import Mathlib

/-!
Verification of the confidence-interval Monte Carlo notebook.

The notebook defines a function computing a z-based confidence interval of a
sample mean (numpy mean, numpy std with ddof = 1, scipy standard-normal
quantile) and a loop that repeatedly draws a sample, computes the interval and
records whether the true mean lies inside it, finally reporting the fraction of
containing intervals.

The sample is a list of real numbers.  The external standard-normal quantile
function of the statistics library is abstracted as a function parameter
together with a contract predicate derived from its documented behaviour.
The random source of a trial is modelled by the sample it produces.
-/

namespace ConfIntervals

/-- Modelled from the spec: contract of the external standard-normal quantile
function (the statistics library collaborator, missing from the repository
itself): given a probability p in (0,1) it returns the number z with
P(Z <= z) = p for a standard normal Z.  Consequences used here: it is strictly
increasing on (0,1) and takes the value 0 at probability 1/2. -/
structure IsNormalPpf (ppf : ℝ → ℝ) : Prop where
  mono : ∀ p q : ℝ, 0 < p → p < q → q < 1 → ppf p < ppf q
  median : ppf (1 / 2) = 0

/-- numpy sample.mean(): the sum of the entries divided by their number. -/
noncomputable def sampleMean (sample : List ℝ) : ℝ :=
  sample.sum / sample.length

/-- numpy sample.std(ddof=1): square root of the sum of squared deviations
from the mean divided by (N - 1) (Bessel's correction). -/
noncomputable def sampleStd (sample : List ℝ) : ℝ :=
  Real.sqrt (((sample.map fun x => (x - sampleMean sample) ^ 2).sum) /
    ((sample.length : ℝ) - 1))

/-- Embedding of calculate_confidence_interval_of_sample_mean from the
notebook.  The parameter ppf stands for the external standard-normal quantile
(scipy stats norm ppf). -/
noncomputable def calculate_confidence_interval_of_sample_mean
    (ppf : ℝ → ℝ) (sample : List ℝ) (alpha : ℝ) : ℝ × ℝ :=
  let N : ℝ := sample.length
  let sample_mean := sampleMean sample
  let sample_std := sampleStd sample
  let z_value := ppf (1 - alpha / 2)
  (sample_mean - z_value * sample_std / Real.sqrt N,
   sample_mean + z_value * sample_std / Real.sqrt N)

/-- The spec's run_trial operation: the body of one iteration of the coverage
loop.  The random source is modelled by the sample it yields, and the
estimator is invoked with alpha = 1 - confidence_level.  The Python code
contains no raise statement on any path, so the computation always returns
normally; the Except codomain records that no error value is ever produced. -/
noncomputable def run_trial (ppf : ℝ → ℝ) (sample : List ℝ)
    (confidence_level : ℝ) : Except String (ℝ × ℝ) :=
  Except.ok (calculate_confidence_interval_of_sample_mean ppf sample
    (1 - confidence_level))

/-- The containment check of the loop: ci_lb <= mu <= ci_ub, inclusive on
both ends. -/
def ciContains (mu : ℝ) (ci : ℝ × ℝ) : Prop :=
  ci.1 ≤ mu ∧ mu ≤ ci.2

/-- Boolean form of the containment check (the loop appends a boolean). -/
noncomputable def ciContainsB (mu : ℝ) (ci : ℝ × ℝ) : Bool :=
  @decide (ciContains mu ci) (Classical.propDecidable _)

/-- The coverage loop: one drawn sample per trial; the result is the number of
trials whose interval contains mu divided by the number of trials (numpy mean
of a boolean list). -/
noncomputable def estimate_coverage (ppf : ℝ → ℝ) (mu alpha : ℝ)
    (samples : List (List ℝ)) : ℝ :=
  ((samples.countP fun s =>
      ciContainsB mu (calculate_confidence_interval_of_sample_mean ppf s alpha)) : ℝ) /
    samples.length

/-- Width (upper minus lower bound) of the interval computed by the
estimator. -/
noncomputable def ciWidth (ppf : ℝ → ℝ) (sample : List ℝ) (alpha : ℝ) : ℝ :=
  (calculate_confidence_interval_of_sample_mean ppf sample alpha).2 -
    (calculate_confidence_interval_of_sample_mean ppf sample alpha).1

/-- The closed-form width 2 * z * s / sqrt n, as a function of the critical
value z, the sample standard deviation s and the sample size n. -/
noncomputable def widthFormula (z s : ℝ) (n : ℕ) : ℝ :=
  2 * z * s / Real.sqrt n

/-- A concrete function satisfying the quantile contract, used to instantiate
the abstract collaborator in concrete evaluations. -/
noncomputable def ppf0 : ℝ → ℝ := fun p => p - 1 / 2

theorem ppf0_isNormalPpf : IsNormalPpf ppf0 := by
  constructor
  · intro p q _ hpq _
    simpa [ppf0] using hpq
  · simp [ppf0]

theorem ppf_pos {ppf : ℝ → ℝ} (hppf : IsNormalPpf ppf) {alpha : ℝ}
    (h0 : 0 < alpha) (h1 : alpha < 1) : 0 < ppf (1 - alpha / 2) := by
  have h := hppf.mono (1 / 2) (1 - alpha / 2) (by norm_num) (by linarith)
    (by linarith)
  rw [hppf.median] at h
  exact h

theorem ppf_neg {ppf : ℝ → ℝ} (hppf : IsNormalPpf ppf) {alpha : ℝ}
    (h1 : 1 < alpha) (h2 : alpha < 2) : ppf (1 - alpha / 2) < 0 := by
  have h := hppf.mono (1 - alpha / 2) (1 / 2) (by linarith) (by linarith)
    (by norm_num)
  rw [hppf.median] at h
  exact h

/-- C1: for every non-empty sample and confidence_level in (0,1), the
estimator called with alpha = 1 - confidence_level returns exactly the pair
(m - z*s/sqrt N, m + z*s/sqrt N), where m is the arithmetic mean, s the
Bessel-corrected standard deviation and z the standard-normal quantile at
probability 1 - alpha/2. -/
theorem C1_interval_formula (ppf : ℝ → ℝ) (sample : List ℝ)
    (confidence_level : ℝ) (hne : sample ≠ []) (h0 : 0 < confidence_level)
    (h1 : confidence_level < 1) :
    calculate_confidence_interval_of_sample_mean ppf sample
        (1 - confidence_level) =
      (sample.sum / sample.length -
         ppf (1 - (1 - confidence_level) / 2) *
           Real.sqrt (((sample.map fun x =>
               (x - sample.sum / sample.length) ^ 2).sum) /
             ((sample.length : ℝ) - 1)) / Real.sqrt (sample.length : ℝ),
       sample.sum / sample.length +
         ppf (1 - (1 - confidence_level) / 2) *
           Real.sqrt (((sample.map fun x =>
               (x - sample.sum / sample.length) ^ 2).sum) /
             ((sample.length : ℝ) - 1)) / Real.sqrt (sample.length : ℝ)) := by
  simp [calculate_confidence_interval_of_sample_mean, sampleMean, sampleStd]

theorem C1_interval_formula_witness :
    calculate_confidence_interval_of_sample_mean ppf0 [1, 2] (1 - 1 / 2) =
      (3 / 2 - ppf0 (3 / 4) * Real.sqrt (1 / 2) / Real.sqrt 2,
       3 / 2 + ppf0 (3 / 4) * Real.sqrt (1 / 2) / Real.sqrt 2) := by
  have h := C1_interval_formula ppf0 [1, 2] (1 / 2) (by simp) (by norm_num)
    (by norm_num)
  rw [h]
  norm_num

/-- C2 counterexample: with confidence_level = 2, which lies outside (0,1),
run_trial does not fail with an invalid-input error; it returns an ordinary
interval value. -/
theorem C2_counterexample :
    (2 : ℝ) ∉ Set.Ioo (0 : ℝ) 1 ∧
      run_trial ppf0 [1, 3] 2 = Except.ok (1, 3) := by
  constructor
  · simp [Set.mem_Ioo]
  · have hs2 : Real.sqrt 2 ≠ 0 := by positivity
    simp only [run_trial, calculate_confidence_interval_of_sample_mean,
      sampleMean, sampleStd, ppf0]
    norm_num [div_self hs2]

/-- C2 amended: run_trial performs no input validation and never fails: for
every quantile function, sample and confidence level (valid or not) it returns
an ordinary value and no error. -/
theorem C2_amended_never_fails (ppf : ℝ → ℝ) (sample : List ℝ)
    (confidence_level : ℝ) :
    ∃ ci : ℝ × ℝ, run_trial ppf sample confidence_level = Except.ok ci :=
  ⟨_, rfl⟩

/-- C3: for every valid input (sample of length at least 2, confidence level
in (0,1)), the interval returned by run_trial satisfies lower <= upper. -/
theorem C3_lower_le_upper (ppf : ℝ → ℝ) (sample : List ℝ)
    (confidence_level : ℝ) (hppf : IsNormalPpf ppf) (hlen : 2 ≤ sample.length)
    (h0 : 0 < confidence_level) (h1 : confidence_level < 1) :
    ∃ ci : ℝ × ℝ, run_trial ppf sample confidence_level = Except.ok ci ∧
      ci.1 ≤ ci.2 := by
  refine ⟨_, rfl, ?_⟩
  have hz : 0 < ppf (1 - (1 - confidence_level) / 2) :=
    ppf_pos hppf (by linarith) (by linarith)
  have hs : 0 ≤ sampleStd sample := Real.sqrt_nonneg _
  have hN : 0 ≤ Real.sqrt (sample.length : ℝ) := Real.sqrt_nonneg _
  have hm : 0 ≤ ppf (1 - (1 - confidence_level) / 2) * sampleStd sample /
      Real.sqrt (sample.length : ℝ) := div_nonneg (mul_nonneg hz.le hs) hN
  simp only [calculate_confidence_interval_of_sample_mean]
  linarith

theorem C3_lower_le_upper_witness :
    IsNormalPpf ppf0 ∧ 2 ≤ ([1, 3] : List ℝ).length ∧ (0 : ℝ) < 1 / 2 ∧
      (1 / 2 : ℝ) < 1 ∧
      ∃ ci : ℝ × ℝ, run_trial ppf0 [1, 3] (1 / 2) = Except.ok ci ∧
        ci.1 ≤ ci.2 :=
  ⟨ppf0_isNormalPpf, by simp, by norm_num, by norm_num,
    C3_lower_le_upper ppf0 [1, 3] (1 / 2) ppf0_isNormalPpf (by simp)
      (by norm_num) (by norm_num)⟩

/-- C4: estimate_coverage records for each trial whether the true mean lies in
the trial's interval (inclusively on both ends) and returns the count of
covering trials divided by the number of trials, a real number in [0, 1]. -/
theorem C4_coverage_fraction (ppf : ℝ → ℝ) (mu alpha : ℝ)
    (samples : List (List ℝ)) (hne : 1 ≤ samples.length) :
    estimate_coverage ppf mu alpha samples =
      ((samples.countP fun s =>
          ciContainsB mu
            (calculate_confidence_interval_of_sample_mean ppf s alpha)) : ℝ) /
        samples.length ∧
      0 ≤ estimate_coverage ppf mu alpha samples ∧
      estimate_coverage ppf mu alpha samples ≤ 1 := by
  refine ⟨rfl, ?_, ?_⟩
  · unfold estimate_coverage
    positivity
  · unfold estimate_coverage
    have hpos : (0 : ℝ) < samples.length := by exact_mod_cast hne
    rw [div_le_one hpos]
    exact_mod_cast List.countP_le_length _

theorem C4_coverage_fraction_witness :
    1 ≤ ([[0]] : List (List ℝ)).length ∧
      0 ≤ estimate_coverage ppf0 0 (1 / 2) [[0]] ∧
      estimate_coverage ppf0 0 (1 / 2) [[0]] ≤ 1 :=
  ⟨by simp, (C4_coverage_fraction ppf0 0 (1 / 2) [[0]] (by simp)).2.1,
    (C4_coverage_fraction ppf0 0 (1 / 2) [[0]] (by simp)).2.2⟩

/-- C8: run_trial is deterministic given its random source: two calls with the
same source state (modelled by the drawn sample) and the same confidence level
produce identical output, and the estimator applied twice to the same sample
and level yields the same pair. -/
theorem C8_deterministic (ppf : ℝ → ℝ) (src1 src2 : List ℝ) (cl1 cl2 : ℝ)
    (hsrc : src1 = src2) (hcl : cl1 = cl2) :
    run_trial ppf src1 cl1 = run_trial ppf src2 cl2 ∧
      calculate_confidence_interval_of_sample_mean ppf src1 (1 - cl1) =
        calculate_confidence_interval_of_sample_mean ppf src2 (1 - cl2) := by
  subst hsrc
  subst hcl
  exact ⟨rfl, rfl⟩

theorem C8_deterministic_witness :
    run_trial ppf0 [5] (1 / 2) = run_trial ppf0 [5] (1 / 2) ∧
      calculate_confidence_interval_of_sample_mean ppf0 [5] (1 - 1 / 2) =
        calculate_confidence_interval_of_sample_mean ppf0 [5] (1 - 1 / 2) :=
  C8_deterministic ppf0 [5] [5] (1 / 2) (1 / 2) rfl rfl

/-- C9: trials are order-independent: the coverage fraction returned by
estimate_coverage is invariant under any permutation of the per-trial samples
(each trial's interval depends only on that trial's own sample). -/
theorem C9_perm_invariant (ppf : ℝ → ℝ) (mu alpha : ℝ)
    (samples1 samples2 : List (List ℝ)) (hperm : samples1.Perm samples2) :
    estimate_coverage ppf mu alpha samples1 =
      estimate_coverage ppf mu alpha samples2 := by
  unfold estimate_coverage
  rw [hperm.countP_eq, hperm.length_eq]

theorem C9_perm_invariant_witness :
    ([[1], [2]] : List (List ℝ)).Perm [[2], [1]] ∧
      estimate_coverage ppf0 0 (1 / 2) [[1], [2]] =
        estimate_coverage ppf0 0 (1 / 2) [[2], [1]] :=
  ⟨List.Perm.swap [2] [1] [],
    C9_perm_invariant ppf0 0 (1 / 2) [[1], [2]] [[2], [1]]
      (List.Perm.swap [2] [1] [])⟩

theorem two_le_length_of_ne {l : List ℝ} {a b : ℝ} (ha : a ∈ l) (hb : b ∈ l)
    (hab : a ≠ b) : 2 ≤ l.length := by
  rcases l with _ | ⟨x, _ | ⟨y, t⟩⟩
  · simp at ha
  · simp at ha hb
    exact absurd (ha.trans hb.symm) hab
  · simp only [List.length_cons]
    omega

theorem sampleStd_pos {l : List ℝ} {a b : ℝ} (ha : a ∈ l) (hb : b ∈ l)
    (hab : a ≠ b) : 0 < sampleStd l := by
  have hlen : 2 ≤ l.length := two_le_length_of_ne ha hb hab
  have hden : (0 : ℝ) < (l.length : ℝ) - 1 := by
    have h2 : (2 : ℝ) ≤ (l.length : ℝ) := by exact_mod_cast hlen
    linarith
  have hmean : a ≠ sampleMean l ∨ b ≠ sampleMean l := by
    by_contra h
    push_neg at h
    exact hab (h.1.trans h.2.symm)
  have hnonneg : ∀ x ∈ l.map fun x => (x - sampleMean l) ^ 2, 0 ≤ x := by
    intro x hx
    rcases List.mem_map.mp hx with ⟨y, _, rfl⟩
    positivity
  have hS : 0 < ((l.map fun x => (x - sampleMean l) ^ 2).sum) := by
    rcases hmean with h | h
    · have hmem : (a - sampleMean l) ^ 2 ∈ l.map fun x => (x - sampleMean l) ^ 2 :=
        List.mem_map_of_mem _ ha
      have hle := List.single_le_sum hnonneg _ hmem
      have hpos : 0 < (a - sampleMean l) ^ 2 :=
        pow_two_pos_of_ne_zero (sub_ne_zero.mpr h)
      linarith
    · have hmem : (b - sampleMean l) ^ 2 ∈ l.map fun x => (x - sampleMean l) ^ 2 :=
        List.mem_map_of_mem _ hb
      have hle := List.single_le_sum hnonneg _ hmem
      have hpos : 0 < (b - sampleMean l) ^ 2 :=
        pow_two_pos_of_ne_zero (sub_ne_zero.mpr h)
      linarith
  exact Real.sqrt_pos.mpr (div_pos hS hden)

/-- C10: the estimator performs no validation of alpha: for alpha strictly
between 1 and 2 and a sample containing two distinct values, the standard
normal quantile at 1 - alpha/2 is negative and the returned pair has
lower > upper. -/
theorem C10_inverted_interval (ppf : ℝ → ℝ) (sample : List ℝ)
    (alpha a b : ℝ) (hppf : IsNormalPpf ppf) (h1 : 1 < alpha) (h2 : alpha < 2)
    (ha : a ∈ sample) (hb : b ∈ sample) (hab : a ≠ b) :
    (calculate_confidence_interval_of_sample_mean ppf sample alpha).2 <
      (calculate_confidence_interval_of_sample_mean ppf sample alpha).1 := by
  have hz : ppf (1 - alpha / 2) < 0 := ppf_neg hppf h1 h2
  have hstd : 0 < sampleStd sample := sampleStd_pos ha hb hab
  have hN : 0 < Real.sqrt (sample.length : ℝ) := by
    apply Real.sqrt_pos.mpr
    have hlen : 2 ≤ sample.length := two_le_length_of_ne ha hb hab
    have : (2 : ℝ) ≤ (sample.length : ℝ) := by exact_mod_cast hlen
    linarith
  have hneg : ppf (1 - alpha / 2) * sampleStd sample /
      Real.sqrt (sample.length : ℝ) < 0 :=
    div_neg_of_neg_of_pos (mul_neg_of_neg_of_pos hz hstd) hN
  simp only [calculate_confidence_interval_of_sample_mean]
  linarith

theorem C10_inverted_interval_witness :
    (1 : ℝ) < 3 / 2 ∧ (3 / 2 : ℝ) < 2 ∧
      (calculate_confidence_interval_of_sample_mean ppf0 [0, 1] (3 / 2)).2 <
        (calculate_confidence_interval_of_sample_mean ppf0 [0, 1] (3 / 2)).1 :=
  ⟨by norm_num, by norm_num,
    C10_inverted_interval ppf0 [0, 1] (3 / 2) 0 1 ppf0_isNormalPpf
      (by norm_num) (by norm_num) (by simp) (by simp) (by norm_num)⟩

/-- C6 (amended): the width of the estimator's interval always equals
2 * critical_value * sample_std / sqrt(sample_size); and, holding the
confidence level and a strictly positive sample standard deviation fixed, the
width is strictly decreasing in the sample size.  (The strict decrease fails
for the degenerate value sample_std = 0, where the width is 0 at every size.) -/
theorem C6_width_monotone (ppf : ℝ → ℝ) (confidence_level s : ℝ) (n1 n2 : ℕ)
    (hppf : IsNormalPpf ppf) (h0 : 0 < confidence_level)
    (h1 : confidence_level < 1) (hs : 0 < s) (hn1 : 2 ≤ n1) (hn : n1 < n2) :
    (∀ sample : List ℝ,
        ciWidth ppf sample (1 - confidence_level) =
          widthFormula (ppf (1 - (1 - confidence_level) / 2))
            (sampleStd sample) sample.length) ∧
      widthFormula (ppf (1 - (1 - confidence_level) / 2)) s n2 <
        widthFormula (ppf (1 - (1 - confidence_level) / 2)) s n1 := by
  have hz : 0 < ppf (1 - (1 - confidence_level) / 2) :=
    ppf_pos hppf (by linarith) (by linarith)
  constructor
  · intro sample
    simp only [ciWidth, calculate_confidence_interval_of_sample_mean,
      widthFormula]
    ring
  · have hn1R : (0 : ℝ) < (n1 : ℝ) := by
      have : (2 : ℝ) ≤ (n1 : ℝ) := by exact_mod_cast hn1
      linarith
    have hs1 : 0 < Real.sqrt (n1 : ℝ) := Real.sqrt_pos.mpr hn1R
    have hs2 : 0 < Real.sqrt (n2 : ℝ) := by
      apply Real.sqrt_pos.mpr
      have : (n1 : ℝ) < (n2 : ℝ) := by exact_mod_cast hn
      linarith
    have hlt : Real.sqrt (n1 : ℝ) < Real.sqrt (n2 : ℝ) :=
      Real.sqrt_lt_sqrt hn1R.le (by exact_mod_cast hn)
    have ha : 0 < 2 * ppf (1 - (1 - confidence_level) / 2) * s := by
      positivity
    simp only [widthFormula]
    exact (div_lt_div_iff_of_pos_left ha hs2 hs1).mpr hlt

theorem C6_width_monotone_witness :
    widthFormula (ppf0 (1 - (1 - 1 / 2) / 2)) 1 3 <
      widthFormula (ppf0 (1 - (1 - 1 / 2) / 2)) 1 2 :=
  (C6_width_monotone ppf0 (1 / 2) 1 2 3 ppf0_isNormalPpf (by norm_num)
    (by norm_num) (by norm_num) (by norm_num) (by norm_num)).2

/-- C6 counterexample: for the valid inputs given by the constant samples
[1, 1] (size 2) and [1, 1, 1] (size 3) at confidence level 1/2, both samples
have the same sample standard deviation (namely 0), yet the interval width
does not strictly decrease from size 2 to size 3: both widths are 0. -/
theorem C6_counterexample :
    IsNormalPpf ppf0 ∧ (0 : ℝ) < 1 / 2 ∧ (1 / 2 : ℝ) < 1 ∧
      ([1, 1] : List ℝ).length = 2 ∧ ([1, 1, 1] : List ℝ).length = 3 ∧
      sampleStd ([1, 1] : List ℝ) = sampleStd [1, 1, 1] ∧
      ¬ ciWidth ppf0 [1, 1, 1] (1 - 1 / 2) < ciWidth ppf0 [1, 1] (1 - 1 / 2) := by
  refine ⟨ppf0_isNormalPpf, by norm_num, by norm_num, by simp, by simp, ?_, ?_⟩
  · simp [sampleStd, sampleMean]
    norm_num
  · simp only [ciWidth, calculate_confidence_interval_of_sample_mean,
      sampleStd, sampleMean]
    norm_num

theorem scenarioMean : sampleMean [998, 1002, 997, 1005, 999] = 1000.2 := by
  simp [sampleMean]
  norm_num

theorem scenarioStd :
    sampleStd [998, 1002, 997, 1005, 999] = Real.sqrt 10.7 := by
  have h : ((([998, 1002, 997, 1005, 999] : List ℝ).map
        fun x => (x - sampleMean [998, 1002, 997, 1005, 999]) ^ 2).sum) /
      ((([998, 1002, 997, 1005, 999] : List ℝ).length : ℝ) - 1) = 10.7 := by
    rw [scenarioMean]
    norm_num
  rw [sampleStd, h]

theorem sqrt107_bounds : 3.271 < Real.sqrt 10.7 ∧ Real.sqrt 10.7 < 3.272 :=
  ⟨(Real.lt_sqrt (by norm_num)).mpr (by norm_num),
   (Real.sqrt_lt' (by norm_num)).mpr (by norm_num)⟩

theorem sqrt5_bounds : 2.236 < Real.sqrt 5 ∧ Real.sqrt 5 < 2.2361 :=
  ⟨(Real.lt_sqrt (by norm_num)).mpr (by norm_num),
   (Real.sqrt_lt' (by norm_num)).mpr (by norm_num)⟩

theorem scenario_interval_bounds (ppf : ℝ → ℝ)
    (hz : ppf (1 - (1 - 0.95) / 2) = 1.95996) :
    997.33 < (calculate_confidence_interval_of_sample_mean ppf
        [998, 1002, 997, 1005, 999] (1 - 0.95)).1 ∧
      (calculate_confidence_interval_of_sample_mean ppf
        [998, 1002, 997, 1005, 999] (1 - 0.95)).1 < 997.34 ∧
      1003.06 < (calculate_confidence_interval_of_sample_mean ppf
        [998, 1002, 997, 1005, 999] (1 - 0.95)).2 ∧
      (calculate_confidence_interval_of_sample_mean ppf
        [998, 1002, 997, 1005, 999] (1 - 0.95)).2 < 1003.07 := by
  obtain ⟨h7lo, h7hi⟩ := sqrt107_bounds
  obtain ⟨h5lo, h5hi⟩ := sqrt5_bounds
  have h5pos : (0 : ℝ) < Real.sqrt 5 := by linarith
  have hlen : ((([998, 1002, 997, 1005, 999] : List ℝ).length : ℝ)) = 5 := by
    simp
  have hm1 : 2.867 < 1.95996 * Real.sqrt 10.7 / Real.sqrt 5 := by
    rw [lt_div_iff₀ h5pos]
    linarith
  have hm2 : 1.95996 * Real.sqrt 10.7 / Real.sqrt 5 < 2.8682 := by
    rw [div_lt_iff₀ h5pos]
    linarith
  simp only [calculate_confidence_interval_of_sample_mean]
  rw [scenarioMean, scenarioStd, hz, hlen]
  refine ⟨by linarith, by linarith, by linarith, by linarith⟩

/-- C5 counterexample: for the scenario sample [998, 1002, 997, 1005, 999] the
Bessel-corrected sample standard deviation computed by the code exceeds 3.27,
so it is not approximately 3.194 as claimed; and with the claimed critical
value 1.95996 the lower interval bound is below 997.34, so the interval is not
approximately [997.40, 1002.997]. -/
theorem C5_counterexample :
    3.27 < sampleStd [998, 1002, 997, 1005, 999] ∧
      (calculate_confidence_interval_of_sample_mean (fun _ => 1.95996)
          [998, 1002, 997, 1005, 999] (1 - 0.95)).1 < 997.34 := by
  have hb := scenario_interval_bounds (fun _ => 1.95996) rfl
  refine ⟨?_, hb.2.1⟩
  rw [scenarioStd]
  have h := sqrt107_bounds.1
  linarith

/-- C5 (amended): for the fixed sample [998, 1002, 997, 1005, 999] and
confidence level 0.95, the estimator computes sample mean exactly 1000.2 and
Bessel-corrected sample standard deviation sqrt(10.7), approximately 3.2711;
with critical value 1.95996 the margin is approximately 2.8672 and the
returned interval approximately [997.333, 1003.067]. -/
theorem C5_scenario (ppf : ℝ → ℝ)
    (hz : ppf (1 - (1 - 0.95) / 2) = 1.95996) :
    sampleMean [998, 1002, 997, 1005, 999] = 1000.2 ∧
      sampleStd [998, 1002, 997, 1005, 999] = Real.sqrt 10.7 ∧
      3.271 < sampleStd [998, 1002, 997, 1005, 999] ∧
      sampleStd [998, 1002, 997, 1005, 999] < 3.272 ∧
      997.33 < (calculate_confidence_interval_of_sample_mean ppf
          [998, 1002, 997, 1005, 999] (1 - 0.95)).1 ∧
      (calculate_confidence_interval_of_sample_mean ppf
          [998, 1002, 997, 1005, 999] (1 - 0.95)).1 < 997.34 ∧
      1003.06 < (calculate_confidence_interval_of_sample_mean ppf
          [998, 1002, 997, 1005, 999] (1 - 0.95)).2 ∧
      (calculate_confidence_interval_of_sample_mean ppf
          [998, 1002, 997, 1005, 999] (1 - 0.95)).2 < 1003.07 := by
  obtain ⟨b1, b2, b3, b4⟩ := scenario_interval_bounds ppf hz
  refine ⟨scenarioMean, scenarioStd, ?_, ?_, b1, b2, b3, b4⟩
  · rw [scenarioStd]
    exact sqrt107_bounds.1
  · rw [scenarioStd]
    exact sqrt107_bounds.2

theorem C5_scenario_witness :
    sampleMean [998, 1002, 997, 1005, 999] = 1000.2 ∧
      3.271 < sampleStd [998, 1002, 997, 1005, 999] :=
  ⟨(C5_scenario (fun _ => 1.95996) rfl).1,
    (C5_scenario (fun _ => 1.95996) rfl).2.2.1⟩

end ConfIntervals
